import Mathlib

set_option maxHeartbeats 1000000

/-!
Shallow embedding of the aklypse error-handling framework
(`src/common/error/{mod,types,circuitbreaker,decrust}.rs`).

Modelling conventions:
* `Duration`, `Instant` and `SystemTime` are natural numbers (milliseconds);
  `Duration::from_millis(100)` is `100`, `checked_sub(..).unwrap_or_default()`
  is truncated `Nat` subtraction.
* `PathBuf` is its display `String`.
* A boxed foreign error (`Box<dyn Error>`) is modelled by `DynError`: either a
  concrete `std::io::Error` (kind plus display message) or an opaque foreign
  error carrying only its display string.  `Arc<std::io::Error>` is `IoError`.
* Backtraces are dropped: they are not user-visible scalar data and no claim
  mentions them (the source re-captures them freshly on every construction).
* `f64` thresholds, confidences and rates are modelled as `Rat`; the source
  only builds them from integer counts and decimal literals and compares them.
-/

/-- Model of `std::io::ErrorKind`, restricted to the kinds the source
distinguishes (`NotFound`, `PermissionDenied`, `InvalidData`) plus `Other`. -/
inductive IoErrorKind
  | notFound
  | permissionDenied
  | invalidData
  | other
  deriving DecidableEq, Repr

/-- Model of `std::io::Error` (as held in `Arc` by the `Io` variant): an error
kind and the display string of its payload.  `std::io::Error::new(kind, msg)`
displays as `msg`. -/
structure IoError where
  kind : IoErrorKind
  msg : String
  deriving DecidableEq, Repr

/-- Model of `Box<dyn std::error::Error + Send + Sync>`: either an
`std::io::Error` or some other foreign error of which only the display string
is observable. -/
inductive DynError
  | ioErr (e : IoError)
  | foreign (display : String)
  deriving DecidableEq, Repr

/-- The display string of a boxed foreign error (`format!("{}", source)`). -/
def DynError.displayStr : DynError → String
  | .ioErr e => e.msg
  | .foreign d => d

/-- `ErrorSeverity` from `types.rs`. -/
inductive ErrorSeverity
  | debug
  | info
  | warning
  | error
  | critical
  deriving DecidableEq, Repr

/-- `ErrorCategory` from `types.rs`. -/
inductive ErrorCategory
  | Io
  | Parsing
  | Network
  | Configuration
  | Validation
  | Internal
  | CircuitBreaker
  | Timeout
  | ResourceExhaustion
  | NotFound
  | Concurrency
  | ExternalService
  | Authentication
  | Authorization
  | StateConflict
  | Multiple
  | Unspecified
  deriving DecidableEq, Repr

/-- `FixType` from `types.rs`. -/
inductive FixType
  | textReplacement
  | astModification
  | addImport
  | addDependency
  | configurationChange
  | executeCommand
  | refactor
  | manualInterventionRequired
  | information
  | updateCargoToml
  | runCargoCommand
  | suggestAlternativeMethod
  deriving DecidableEq, Repr

/-- `FixDetails` from `types.rs` (`PathBuf` fields are display strings). -/
inductive FixDetails
  | textReplace (file_path : String) (line_start : Nat) (column_start : Nat)
      (line_end : Nat) (column_end : Nat)
      (original_text_snippet : Option String) (replacement_text : String)
  | addImport (file_path : String) (importLine : String)
  | addCargoDependency (dependency : String) (version : String)
      (features : List String) (is_dev_dependency : Bool)
  | executeCommand (command : String) (args : List String)
      (working_directory : Option String)
  | suggestCodeChange (file_path : String) (line_hint : Nat)
      (suggested_code_snippet : String) (explanation : String)
  deriving DecidableEq, Repr

/-- `ErrorSource` from `types.rs`. -/
structure ErrorSource where
  file : String
  line : Nat
  module_path : String
  column : Option Nat
  function : Option String
  deriving DecidableEq, Repr

/-- `ErrorLocation` from `types.rs`. -/
structure ErrorLocation where
  file : String
  line : Nat
  column : Nat
  function_context : String
  snafu_variant : Option String
  deriving DecidableEq, Repr

/-- `MacroExpansion` from `types.rs`. -/
structure MacroExpansion where
  macro_name : String
  expansion_site : ErrorLocation
  generated_code_snippet : String
  deriving DecidableEq, Repr

/-- `DiagnosticResult` from `types.rs`. -/
structure DiagnosticResult where
  primary_location : Option ErrorLocation
  expansion_trace : List MacroExpansion
  suggested_fixes : List String
  original_message : Option String
  diagnostic_code : Option String
  deriving DecidableEq, Repr

/-- `ErrorContext` from `types.rs`; the `HashMap<String, String>` metadata is
an association list, the `SystemTime` timestamp a `Nat`. -/
structure ErrorContext where
  message : String
  source_location : Option ErrorSource
  recovery_suggestion : Option String
  metadata : List (String × String)
  severity : ErrorSeverity
  timestamp : Option Nat
  correlation_id : Option String
  component : Option String
  tags : List String
  diagnostic_info : Option DiagnosticResult
  deriving DecidableEq, Repr

/-- `Autocorrection` from `types.rs`; the `f64` confidence is a `Rat`. -/
structure Autocorrection where
  description : String
  fix_type : FixType
  confidence : Rat
  details : Option FixDetails
  diff_suggestion : Option String
  commands_to_apply : List String
  targets_error_code : Option String
  deriving DecidableEq, Repr

/-- The `AklypseError` enum from `mod.rs`.  Backtrace fields are dropped (see
the module comment); all other fields are carried.  The `Whatever` variant's
optional backtrace is likewise dropped. -/
inductive AklypseError
  | Io (source : IoError) (path : Option String) (operation : String)
  | Parse (source : DynError) (kind : String) (context_info : String)
  | Network (source : DynError) (url : Option String) (kind : String)
  | Config (message : String) (path : Option String) (source : Option DynError)
  | Validation (field : String) (message : String)
  | Internal (message : String) (source : Option DynError)
  | CircuitBreakerOpen (name : String) (retry_after : Option Nat)
  | Timeout (operation : String) (duration : Nat)
  | ResourceExhausted (resource : String) (limit : String) (current : String)
  | NotFound (resource_type : String) (identifier : String)
  | StateConflict (message : String)
  | Concurrency (message : String) (source : Option DynError)
  | ExternalService (service_name : String) (message : String)
      (source : Option DynError)
  | MissingValue (item_description : String)
  | MultipleErrors (errors : List AklypseError)
  | WithRichContext (context : ErrorContext) (source : AklypseError)
  | Whatever (message : String) (source : Option DynError)

/-- `AklypseError::category` from `mod.rs`. -/
def AklypseError.category : AklypseError → ErrorCategory
  | .Io .. => .Io
  | .Parse .. => .Parsing
  | .Network .. => .Network
  | .Config .. => .Configuration
  | .Validation .. => .Validation
  | .Internal .. => .Internal
  | .CircuitBreakerOpen .. => .CircuitBreaker
  | .Timeout .. => .Timeout
  | .ResourceExhausted .. => .ResourceExhaustion
  | .NotFound .. => .NotFound
  | .StateConflict .. => .StateConflict
  | .Concurrency .. => .Concurrency
  | .ExternalService .. => .ExternalService
  | .MultipleErrors .. => .Multiple
  | .WithRichContext _ source => source.category
  | .Whatever .. => .Unspecified
  | .MissingValue .. => .Validation

/-- Surrogate foreign error used by `impl Clone for AklypseError` for a boxed
`dyn Error` source: `Box::new(std::io::Error::new(kind, format!("{}", s)))`. -/
def DynError.surrogate (kind : IoErrorKind) (s : DynError) : DynError :=
  .ioErr ⟨kind, s.displayStr⟩

/-- `impl Clone for AklypseError` from `mod.rs`.  Variants wrapping a foreign
error rebuild a surrogate `std::io::Error` from the original's display string
(and, for `Io`, the original's kind); all other fields clone exactly. -/
def AklypseError.clone : AklypseError → AklypseError
  | .Io source path operation =>
      .Io ⟨source.kind, source.msg⟩ path operation
  | .Parse source kind context_info =>
      .Parse (source.surrogate .invalidData) kind context_info
  | .Network source url kind =>
      .Network (source.surrogate .other) url kind
  | .Config message path source =>
      .Config message path (source.map (DynError.surrogate .other))
  | .Validation field message => .Validation field message
  | .Internal message source =>
      .Internal message (source.map (DynError.surrogate .other))
  | .CircuitBreakerOpen name retry_after => .CircuitBreakerOpen name retry_after
  | .Timeout operation duration => .Timeout operation duration
  | .ResourceExhausted resource limit current =>
      .ResourceExhausted resource limit current
  | .NotFound resource_type identifier => .NotFound resource_type identifier
  | .StateConflict message => .StateConflict message
  | .Concurrency message source =>
      .Concurrency message (source.map (DynError.surrogate .other))
  | .ExternalService service_name message source =>
      .ExternalService service_name message (source.map (DynError.surrogate .other))
  | .MissingValue item_description => .MissingValue item_description
  | .MultipleErrors errors =>
      .MultipleErrors (errors.attach.map fun x => AklypseError.clone x.1)
  | .WithRichContext context source => .WithRichContext context source.clone
  | .Whatever message source =>
      .Whatever message (source.map (DynError.surrogate .other))
termination_by e => sizeOf e
decreasing_by
all_goals simp_wf
all_goals try have := List.sizeOf_lt_of_mem x.2
all_goals omega

/-- Unfolding of `AklypseError.clone` at `MultipleErrors`: the wrapped errors
are cloned element-wise. -/
theorem AklypseError.clone_multipleErrors (es : List AklypseError) :
    (AklypseError.MultipleErrors es).clone =
      .MultipleErrors (es.map AklypseError.clone) := by
  rw [AklypseError.clone]
  congr 1
  simp

/-- `AklypseError::add_context` from `mod.rs`. -/
def AklypseError.add_context (e : AklypseError) (context : ErrorContext) :
    AklypseError :=
  .WithRichContext context e

/-- The user-visible data of an error: every scalar field (paths, strings,
numbers, durations), the display string of each wrapped foreign error and the
IO error kind of the `Io` variant, but not the foreign errors' identity or
structure.  Cloning is expected to preserve exactly this view. -/
inductive UserView
  | Io (srcKind : IoErrorKind) (srcDisplay : String) (path : Option String)
      (operation : String)
  | Parse (srcDisplay : String) (kind : String) (context_info : String)
  | Network (srcDisplay : String) (url : Option String) (kind : String)
  | Config (message : String) (path : Option String)
      (srcDisplay : Option String)
  | Validation (field : String) (message : String)
  | Internal (message : String) (srcDisplay : Option String)
  | CircuitBreakerOpen (name : String) (retry_after : Option Nat)
  | Timeout (operation : String) (duration : Nat)
  | ResourceExhausted (resource : String) (limit : String) (current : String)
  | NotFound (resource_type : String) (identifier : String)
  | StateConflict (message : String)
  | Concurrency (message : String) (srcDisplay : Option String)
  | ExternalService (service_name : String) (message : String)
      (srcDisplay : Option String)
  | MissingValue (item_description : String)
  | MultipleErrors (errors : List UserView)
  | WithRichContext (context : ErrorContext) (inner : UserView)
  | Whatever (message : String) (srcDisplay : Option String)

/-- Projection of an error onto its user-visible data. -/
def AklypseError.view : AklypseError → UserView
  | .Io source path operation => .Io source.kind source.msg path operation
  | .Parse source kind context_info =>
      .Parse source.displayStr kind context_info
  | .Network source url kind => .Network source.displayStr url kind
  | .Config message path source =>
      .Config message path (source.map DynError.displayStr)
  | .Validation field message => .Validation field message
  | .Internal message source =>
      .Internal message (source.map DynError.displayStr)
  | .CircuitBreakerOpen name retry_after => .CircuitBreakerOpen name retry_after
  | .Timeout operation duration => .Timeout operation duration
  | .ResourceExhausted resource limit current =>
      .ResourceExhausted resource limit current
  | .NotFound resource_type identifier => .NotFound resource_type identifier
  | .StateConflict message => .StateConflict message
  | .Concurrency message source =>
      .Concurrency message (source.map DynError.displayStr)
  | .ExternalService service_name message source =>
      .ExternalService service_name message (source.map DynError.displayStr)
  | .MissingValue item_description => .MissingValue item_description
  | .MultipleErrors errors =>
      .MultipleErrors (errors.attach.map fun x => AklypseError.view x.1)
  | .WithRichContext context source => .WithRichContext context source.view
  | .Whatever message source =>
      .Whatever message (source.map DynError.displayStr)
termination_by e => sizeOf e
decreasing_by
all_goals simp_wf
all_goals try have := List.sizeOf_lt_of_mem x.2
all_goals omega

/-- Unfolding of `AklypseError.view` at `MultipleErrors`. -/
theorem AklypseError.view_multipleErrors (es : List AklypseError) :
    (AklypseError.MultipleErrors es).view =
      .MultipleErrors (es.map AklypseError.view) := by
  rw [AklypseError.view]
  congr 1
  simp

theorem AklypseError.view_clone : ∀ (e : AklypseError), e.clone.view = e.view
  | .Io .. => by simp [AklypseError.clone, AklypseError.view]
  | .Parse .. => by
      simp [AklypseError.clone, AklypseError.view, DynError.surrogate,
        DynError.displayStr]
  | .Network .. => by
      simp [AklypseError.clone, AklypseError.view, DynError.surrogate,
        DynError.displayStr]
  | .Config _ _ source => by
      cases source <;>
        simp [AklypseError.clone, AklypseError.view, DynError.surrogate,
          DynError.displayStr]
  | .Validation .. => by simp [AklypseError.clone, AklypseError.view]
  | .Internal _ source => by
      cases source <;>
        simp [AklypseError.clone, AklypseError.view, DynError.surrogate,
          DynError.displayStr]
  | .CircuitBreakerOpen .. => by simp [AklypseError.clone, AklypseError.view]
  | .Timeout .. => by simp [AklypseError.clone, AklypseError.view]
  | .ResourceExhausted .. => by simp [AklypseError.clone, AklypseError.view]
  | .NotFound .. => by simp [AklypseError.clone, AklypseError.view]
  | .StateConflict .. => by simp [AklypseError.clone, AklypseError.view]
  | .Concurrency _ source => by
      cases source <;>
        simp [AklypseError.clone, AklypseError.view, DynError.surrogate,
          DynError.displayStr]
  | .ExternalService _ _ source => by
      cases source <;>
        simp [AklypseError.clone, AklypseError.view, DynError.surrogate,
          DynError.displayStr]
  | .MissingValue .. => by simp [AklypseError.clone, AklypseError.view]
  | .MultipleErrors errors => by
      rw [AklypseError.clone_multipleErrors, AklypseError.view_multipleErrors,
        AklypseError.view_multipleErrors, List.map_map]
      exact congrArg UserView.MultipleErrors (List.map_congr_left fun a ha =>
        AklypseError.view_clone a)
  | .WithRichContext context source => by
      simp only [AklypseError.clone, AklypseError.view]
      rw [AklypseError.view_clone source]
  | .Whatever _ source => by
      cases source <;>
        simp [AklypseError.clone, AklypseError.view, DynError.surrogate,
          DynError.displayStr]
termination_by e => sizeOf e
decreasing_by
all_goals simp_wf
all_goals try have := List.sizeOf_lt_of_mem ha
all_goals omega

/-- Cloning preserves the category of every variant; for `WithRichContext`
this recurses with the inner error, for `MultipleErrors` both sides are
`Multiple`. -/
theorem AklypseError.category_clone :
    ∀ e : AklypseError, e.clone.category = e.category
  | .Io .. => by simp [AklypseError.clone, AklypseError.category]
  | .Parse .. => by simp [AklypseError.clone, AklypseError.category]
  | .Network .. => by simp [AklypseError.clone, AklypseError.category]
  | .Config .. => by simp [AklypseError.clone, AklypseError.category]
  | .Validation .. => by simp [AklypseError.clone, AklypseError.category]
  | .Internal .. => by simp [AklypseError.clone, AklypseError.category]
  | .CircuitBreakerOpen .. => by simp [AklypseError.clone, AklypseError.category]
  | .Timeout .. => by simp [AklypseError.clone, AklypseError.category]
  | .ResourceExhausted .. => by simp [AklypseError.clone, AklypseError.category]
  | .NotFound .. => by simp [AklypseError.clone, AklypseError.category]
  | .StateConflict .. => by simp [AklypseError.clone, AklypseError.category]
  | .Concurrency .. => by simp [AklypseError.clone, AklypseError.category]
  | .ExternalService .. => by simp [AklypseError.clone, AklypseError.category]
  | .MissingValue .. => by simp [AklypseError.clone, AklypseError.category]
  | .MultipleErrors errors => by
      rw [AklypseError.clone_multipleErrors]
      simp [AklypseError.category]
  | .WithRichContext context source => by
      simp only [AklypseError.clone, AklypseError.category]
      exact AklypseError.category_clone source
  | .Whatever .. => by simp [AklypseError.clone, AklypseError.category]
termination_by e => sizeOf e
decreasing_by
all_goals simp_wf

/-- `AutocorrectableError::get_diagnostic_info` for `AklypseError`
(`decrust.rs`): only the outermost `WithRichContext` layer is inspected. -/
def AklypseError.get_diagnostic_info : AklypseError → Option DiagnosticResult
  | .WithRichContext context _ => context.diagnostic_info
  | _ => none

/-- Abstraction of the `std::path` / `std::fs` queries used by the Decrust
engine (`Path::parent` rendered through `display`, `Path::extension().is_none()`,
`Path::exists`, `Path::is_dir`).  These are external library and filesystem
calls, so they are parameters of the model rather than definitions. -/
structure PathFsModel where
  parent : String → Option String
  extensionIsNone : String → Bool
  pathExists : String → Bool
  isDir : String → Bool

/-- `Decrust::suggest_autocorrection` from `decrust.rs`.  Priority 1 uses an
embedded `DiagnosticResult` (early return in the source, modelled by the outer
match); otherwise the error's category selects a heuristic.  String formatting
is written out with concatenation; `format!("{:?}", cat)` on an
`ErrorCategory` is the variant's name. -/
def Decrust.suggest_autocorrection (fs : PathFsModel) (error : AklypseError)
    (_source_code_context : Option String) : Option Autocorrection :=
  let diagFix : Option Autocorrection :=
    match error.get_diagnostic_info with
    | some diag_info =>
        if diag_info.suggested_fixes.isEmpty then none
        else
          let primary_fix_text := String.intercalate "\n" diag_info.suggested_fixes
          let file_path_from_diag := diag_info.primary_location.map
            (fun loc => loc.file)
          let details := file_path_from_diag.map fun fp =>
            FixDetails.textReplace fp
              ((diag_info.primary_location.map fun loc => loc.line).getD 0)
              ((diag_info.primary_location.map fun loc => loc.column).getD 0)
              ((diag_info.primary_location.map fun loc => loc.line).getD 0)
              ((diag_info.primary_location.map fun loc =>
                loc.column +
                  (primary_fix_text.toList.filter (fun c => c ≠ '\n')).length.max 1).getD 0)
              diag_info.original_message
              primary_fix_text
          some { description := "Apply fix suggested by diagnostic tool.",
                 fix_type := .textReplacement,
                 confidence := 85/100,
                 details := details,
                 diff_suggestion := none,
                 commands_to_apply := [],
                 targets_error_code := diag_info.diagnostic_code }
    | none => none
  match diagFix with
  | some a => some a
  | none =>
    match error.category with
    | .NotFound =>
      let rt_id : String × String :=
        match error with
        | .NotFound resource_type identifier => (resource_type, identifier)
        | _ => ("unknown resource", "unknown identifier")
      let resource_type := rt_id.1
      let identifier := rt_id.2
      let commands : List String :=
        if resource_type = "file" ∨ resource_type = "path" then
          (match fs.parent identifier with
           | some par =>
               if ¬ par = "" ∧ ¬ fs.pathExists par then
                 ["mkdir -p \"" ++ par ++ "\""]
               else []
           | none => []) ++ ["touch \"" ++ identifier ++ "\""]
        else []
      let suggestion_details : Option FixDetails :=
        if resource_type = "file" ∨ resource_type = "path" then
          some (.executeCommand (commands.head?.getD "") (commands.drop 1) none)
        else none
      some { description := "Resource type '" ++ resource_type ++
               "' with identifier '" ++ identifier ++
               "' not found. Consider creating it if it's a file/directory, or verify the path/name.",
             fix_type := if commands.isEmpty then .manualInterventionRequired
               else .executeCommand,
             confidence := 7/10,
             details := suggestion_details,
             diff_suggestion := none,
             commands_to_apply := commands,
             targets_error_code := some "NotFound" }
    | .Io =>
      let unpacked : String × Option String × Option String × Option IoErrorKind :=
        match error with
        | .Io source path operation => (source.msg, path, some operation, some source.kind)
        | _ => ("Unknown I/O error", none, none, none)
      let source_msg := unpacked.1
      let path_opt := unpacked.2.1
      let operation_opt := unpacked.2.2.1
      let io_kind_opt := unpacked.2.2.2
      let path_str := path_opt.getD "<unknown_path>"
      let op_str := operation_opt.getD "<unknown_op>"
      let dcf : Option FixDetails × List String × FixType :=
        match io_kind_opt with
        | some .notFound =>
          (match path_opt with
           | some p =>
             (some (.suggestCodeChange p 0
                ("// Ensure path '" ++ p ++ "' exists before operation '" ++
                  op_str ++ "'\n// Or handle the NotFound error gracefully.")
                "The file or directory specified in the operation was not found at the given path."),
              (if fs.isDir p ∨ fs.extensionIsNone p then
                 ["mkdir -p \"" ++ p ++ "\""]
               else
                 (match fs.parent p with
                  | some par =>
                      if ¬ par = "" ∧ ¬ fs.pathExists par then
                        ["mkdir -p \"" ++ par ++ "\""]
                      else []
                  | none => []) ++ ["touch \"" ++ p ++ "\""]),
              FixType.executeCommand)
           | none => (none, [], FixType.executeCommand))
        | some .permissionDenied =>
          (some (.suggestCodeChange
             (path_opt.getD "unknown_file_causing_permission_error") 0
             ("// Check permissions for path '" ++ path_str ++
               "' for operation '" ++ op_str ++ "'")
             "The application does not have the necessary permissions to perform the I/O operation."),
           [], FixType.configurationChange)
        | _ => (none, [], FixType.information)
      some { description := "I/O error during '" ++ op_str ++ "' on path '" ++
               path_str ++ "': " ++ source_msg ++
               ". Verify path, permissions, or disk space.",
             fix_type := dcf.2.2,
             confidence := 65/100,
             details := dcf.1,
             diff_suggestion := none,
             commands_to_apply := dcf.2.1,
             targets_error_code := some "Io" }
    | .Configuration =>
      let mp : String × Option String :=
        match error with
        | .Config message path _ => (message, path)
        | _ => ("Unknown configuration error", none)
      let message := mp.1
      let path_opt := mp.2
      let target_file := path_opt.getD "config.toml"
      some { description := "Configuration issue for path '" ++
               (path_opt.getD "<unknown_config>") ++ "': " ++ message ++
               ". Please review the configuration file structure and values.",
             fix_type := .configurationChange,
             confidence := 7/10,
             details := some (.suggestCodeChange target_file 1
               ("# Review this configuration file for error related to: " ++
                 message ++
                 "\n# Ensure all values are correctly formatted and all required fields are present.")
               "Configuration files require specific syntax, valid values, and all mandatory fields to be present."),
             diff_suggestion := none,
             commands_to_apply := [],
             targets_error_code := some "Configuration" }
    | _ => none

/-- `CircuitState` from `circuitbreaker.rs`. -/
inductive CircuitState
  | Closed
  | Open
  | HalfOpen
  deriving DecidableEq, Repr

/-- `CircuitMetrics` from `circuitbreaker.rs`; `u64`/`u32` counters are `Nat`,
`SystemTime` stamps are `Nat`, `f64` rates are `Rat`. -/
structure CircuitMetrics where
  state : CircuitState
  total_requests : Nat
  successful_requests : Nat
  failed_requests : Nat
  rejected_requests : Nat
  timeout_requests : Nat
  consecutive_failures : Nat
  consecutive_successes : Nat
  last_error_timestamp : Option Nat
  last_transition_timestamp : Option Nat
  failure_rate_in_window : Option Rat
  slow_call_rate_in_window : Option Rat
  deriving DecidableEq, Repr

/-- The all-zero `CircuitMetrics::default()` (state defaulting to `Closed`). -/
def CircuitMetrics.default0 : CircuitMetrics :=
  { state := .Closed, total_requests := 0, successful_requests := 0,
    failed_requests := 0, rejected_requests := 0, timeout_requests := 0,
    consecutive_failures := 0, consecutive_successes := 0,
    last_error_timestamp := none, last_transition_timestamp := none,
    failure_rate_in_window := none, slow_call_rate_in_window := none }

/-- `CircuitBreakerConfig` from `circuitbreaker.rs`; durations in
milliseconds, rates as `Rat`, the error predicate as an optional Lean
function. -/
structure CircuitBreakerConfig where
  failure_threshold : Nat
  failure_rate_threshold : Rat
  minimum_request_threshold_for_rate : Nat
  success_threshold_to_close : Nat
  reset_timeout : Nat
  half_open_max_concurrent_operations : Nat
  operation_timeout : Option Nat
  sliding_window_size : Nat
  error_predicate : Option (AklypseError → Bool)
  metrics_history_size : Nat
  track_metrics : Bool
  slow_call_duration_threshold : Option Nat
  slow_call_rate_threshold : Option Rat

/-- `CircuitBreakerConfig::default()` from `circuitbreaker.rs`. -/
def CircuitBreakerConfig.default0 : CircuitBreakerConfig :=
  { failure_threshold := 5, failure_rate_threshold := 1/2,
    minimum_request_threshold_for_rate := 10, success_threshold_to_close := 3,
    reset_timeout := 30000, half_open_max_concurrent_operations := 1,
    operation_timeout := some 5000, sliding_window_size := 100,
    error_predicate := none, metrics_history_size := 100, track_metrics := true,
    slow_call_duration_threshold := none, slow_call_rate_threshold := none }

/-- `InnerState` from `circuitbreaker.rs`; the two `VecDeque<bool>` windows
are lists (front at the head), `Instant`s are `Nat`. -/
structure InnerState where
  state : CircuitState
  opened_at : Option Nat
  half_open_entered_at : Option Nat
  consecutive_failures : Nat
  consecutive_successes : Nat
  half_open_concurrency_count : Nat
  results_window : List Bool
  slow_call_window : List Bool
  metrics : CircuitMetrics
  last_state_transition_time : Nat
  deriving DecidableEq, Repr

/-- `InnerState::default()`: a breaker starts `Closed` with empty windows and
zeroed counters (`Instant::now()` at construction is time 0). -/
def InnerState.default0 : InnerState :=
  { state := .Closed, opened_at := none, half_open_entered_at := none,
    consecutive_failures := 0, consecutive_successes := 0,
    half_open_concurrency_count := 0, results_window := [],
    slow_call_window := [], metrics := CircuitMetrics.default0,
    last_state_transition_time := 0 }

/-- The window-update idiom repeated in `record_success`, `record_failure`
and `record_timeout`: `if window.len() >= size { window.pop_front(); }
window.push_back(x)`. -/
def windowPush (size : Nat) (w : List Bool) (x : Bool) : List Bool :=
  (if w.length ≥ size then w.tail else w) ++ [x]

/-- Count of `false` entries of a results window
(`iter().filter(|&&success| !success).count()`). -/
def countFailures (w : List Bool) : Nat := (w.filter (fun success => !success)).length

/-- Count of `true` entries of a slow-call window
(`iter().filter(|&&slow| slow).count()`). -/
def countSlow (w : List Bool) : Nat := (w.filter (fun slow => slow)).length

/-- `CircuitBreaker::update_rates` from `circuitbreaker.rs`. -/
def CircuitBreaker.update_rates (inner : InnerState) : InnerState :=
  let m1 :=
    if inner.results_window.isEmpty then
      { inner.metrics with failure_rate_in_window := none }
    else
      { inner.metrics with
        failure_rate_in_window := some
          ((countFailures inner.results_window : Rat) /
            (inner.results_window.length : Rat)) }
  let m2 :=
    if inner.slow_call_window.isEmpty then
      { m1 with slow_call_rate_in_window := none }
    else
      { m1 with
        slow_call_rate_in_window := some
          ((countSlow inner.slow_call_window : Rat) /
            (inner.slow_call_window.length : Rat)) }
  { inner with metrics := m2 }

/-- `CircuitBreaker::should_open_circuit` from `circuitbreaker.rs`. -/
def CircuitBreaker.should_open_circuit (config : CircuitBreakerConfig)
    (inner : InnerState) : Bool :=
  if inner.consecutive_failures ≥ config.failure_threshold then true
  else if inner.results_window.length ≥ config.minimum_request_threshold_for_rate
      ∧ (countFailures inner.results_window : Rat) /
          (inner.results_window.length : Rat) ≥ config.failure_rate_threshold then
    true
  else
    match config.slow_call_rate_threshold with
    | some threshold =>
        if ¬ inner.slow_call_window.isEmpty
            ∧ (countSlow inner.slow_call_window : Rat) /
                (inner.slow_call_window.length : Rat) ≥ threshold then
          true
        else false
    | none => false

/-- `CircuitBreaker::should_count_as_failure` from `circuitbreaker.rs`. -/
def CircuitBreaker.should_count_as_failure (config : CircuitBreakerConfig)
    (error : AklypseError) : Bool :=
  match config.error_predicate with
  | some predicate => predicate error
  | none => true

/-- `CircuitBreaker::record_success` from `circuitbreaker.rs`. -/
def CircuitBreaker.record_success (config : CircuitBreakerConfig)
    (duration : Nat) (s : InnerState) : InnerState :=
  let s := { s with consecutive_successes := s.consecutive_successes + 1,
                    consecutive_failures := 0 }
  let s := { s with results_window := (windowPush config.sliding_window_size
               s.results_window true) }
  let was_slow : Bool :=
    match config.slow_call_duration_threshold with
    | some threshold => decide (duration ≥ threshold)
    | none => false
  let s := { s with slow_call_window := (windowPush config.sliding_window_size
               s.slow_call_window was_slow) }
  let s := { s with metrics := { s.metrics with
                                   total_requests := s.metrics.total_requests + 1,
                                   successful_requests := s.metrics.successful_requests + 1,
                                   consecutive_successes := s.consecutive_successes,
                                   consecutive_failures := 0 } }
  CircuitBreaker.update_rates s

/-- `CircuitBreaker::record_failure` from `circuitbreaker.rs` (the error is
only cloned for observers, which the model omits). -/
def CircuitBreaker.record_failure (config : CircuitBreakerConfig) (now : Nat)
    (_error : AklypseError) (duration : Nat) (s : InnerState) : InnerState :=
  let s := { s with consecutive_failures := s.consecutive_failures + 1,
                    consecutive_successes := 0 }
  let s := { s with results_window := (windowPush config.sliding_window_size
               s.results_window false) }
  let was_slow : Bool :=
    match config.slow_call_duration_threshold with
    | some threshold => decide (duration ≥ threshold)
    | none => false
  let s := { s with slow_call_window := (windowPush config.sliding_window_size
               s.slow_call_window was_slow) }
  let s := { s with metrics := { s.metrics with
                                   total_requests := s.metrics.total_requests + 1,
                                   failed_requests := s.metrics.failed_requests + 1,
                                   consecutive_failures := s.consecutive_failures,
                                   consecutive_successes := 0,
                                   last_error_timestamp := some now } }
  CircuitBreaker.update_rates s

/-- `CircuitBreaker::record_rejected` from `circuitbreaker.rs`. -/
def CircuitBreaker.record_rejected (s : InnerState) : InnerState :=
  { s with metrics := { s.metrics with
                          total_requests := s.metrics.total_requests + 1,
                          rejected_requests := s.metrics.rejected_requests + 1 } }

/-- `CircuitBreaker::record_timeout` from `circuitbreaker.rs`.  Note: unlike
`record_success` and `record_failure` it pushes only to the results window,
not to the slow-call window. -/
def CircuitBreaker.record_timeout (config : CircuitBreakerConfig) (now : Nat)
    (s : InnerState) : InnerState :=
  let s := { s with consecutive_failures := s.consecutive_failures + 1,
                    consecutive_successes := 0 }
  let s := { s with results_window := (windowPush config.sliding_window_size
               s.results_window false) }
  let s := { s with metrics := { s.metrics with
                                   total_requests := s.metrics.total_requests + 1,
                                   timeout_requests := s.metrics.timeout_requests + 1,
                                   consecutive_failures := s.consecutive_failures,
                                   consecutive_successes := 0,
                                   last_error_timestamp := some now } }
  CircuitBreaker.update_rates s

/-- `CircuitBreaker::transition_to_open` from `circuitbreaker.rs`.  Note:
`half_open_entered_at` is not cleared. -/
def CircuitBreaker.transition_to_open (now : Nat) (s : InnerState) : InnerState :=
  let s := { s with state := .Open, opened_at := some now,
                    consecutive_successes := 0 }
  { s with metrics := { s.metrics with
                          state := .Open,
                          last_transition_timestamp := some now } }

/-- `CircuitBreaker::transition_to_half_open` from `circuitbreaker.rs`.  Note:
`opened_at` is not cleared. -/
def CircuitBreaker.transition_to_half_open (now : Nat) (s : InnerState) :
    InnerState :=
  let s := { s with state := .HalfOpen, half_open_entered_at := some now,
                    consecutive_successes := 0,
                    half_open_concurrency_count := 0 }
  { s with metrics := { s.metrics with
                          state := .HalfOpen,
                          last_transition_timestamp := some now } }

/-- `CircuitBreaker::transition_to_closed` from `circuitbreaker.rs`. -/
def CircuitBreaker.transition_to_closed (now : Nat) (s : InnerState) :
    InnerState :=
  let s := { s with state := .Closed, opened_at := none,
                    half_open_entered_at := none, consecutive_failures := 0 }
  { s with metrics := { s.metrics with
                          state := .Closed,
                          last_transition_timestamp := some now } }

/-- `CircuitBreaker::trip` from `circuitbreaker.rs`. -/
def CircuitBreaker.trip (config : CircuitBreakerConfig) (now : Nat)
    (s : InnerState) : InnerState :=
  let s := { s with state := .Open, opened_at := some now,
                    consecutive_failures := config.failure_threshold,
                    consecutive_successes := 0 }
  { s with metrics := { s.metrics with
                          state := .Open,
                          consecutive_failures := s.consecutive_failures,
                          consecutive_successes := 0,
                          last_transition_timestamp := some now } }

/-- `CircuitBreaker::reset` from `circuitbreaker.rs`. -/
def CircuitBreaker.reset (now : Nat) (s : InnerState) : InnerState :=
  let s := { s with state := .Closed, opened_at := none,
                    half_open_entered_at := none, consecutive_failures := 0,
                    consecutive_successes := 0,
                    half_open_concurrency_count := 0 }
  let s := { s with metrics := { s.metrics with
                                   state := .Closed,
                                   consecutive_failures := 0,
                                   consecutive_successes := 0,
                                   last_transition_timestamp := some now } }
  { s with results_window := [], slow_call_window := [] }

/-- The behaviour of one operation run through the breaker: the result it
produces when it completes and its running time in milliseconds.  An
operation that never completes is one whose running time exceeds every
timeout of interest. -/
structure OpRun (Ret : Type) where
  res : Except AklypseError Ret
  running_time : Nat

/-- `CircuitBreaker::execute_with_timeout` from `circuitbreaker.rs`, in its
`std-thread` build: the operation runs on a worker and
`rx.recv_timeout(timeout)` delivers its result iff the running time is within
the timeout; otherwise `record_timeout` runs and a synthesized `Timeout`
error is returned. -/
def CircuitBreaker.execute_with_timeout {Ret : Type} (name : String)
    (config : CircuitBreakerConfig) (now : Nat) (op : OpRun Ret)
    (timeout : Nat) (s : InnerState) : InnerState × Except AklypseError Ret :=
  if op.running_time > timeout then
    (CircuitBreaker.record_timeout config now s,
     .error (.Timeout ("Operation in circuit breaker '" ++ name ++ "'") timeout))
  else (s, op.res)

/-- The wall-clock duration `start_time.elapsed()` observed by the recording
code: when a timeout is configured the caller waits at most `timeout`, so the
observed duration is the running time capped by the timeout. -/
def observed_duration (config : CircuitBreakerConfig) (op_time : Nat) : Nat :=
  match config.operation_timeout with
  | some timeout => min op_time timeout
  | none => op_time

/-- `CircuitBreaker::execute_closed` from `circuitbreaker.rs`. -/
def CircuitBreaker.execute_closed {Ret : Type} (name : String)
    (config : CircuitBreakerConfig) (now : Nat) (op : OpRun Ret)
    (s : InnerState) : InnerState × Except AklypseError Ret :=
  let sr :=
    match config.operation_timeout with
    | some timeout => CircuitBreaker.execute_with_timeout name config now op timeout s
    | none => (s, op.res)
  let s1 := sr.1
  let result := sr.2
  let duration := observed_duration config op.running_time
  match result with
  | .ok v => (CircuitBreaker.record_success config duration s1, .ok v)
  | .error e =>
      if CircuitBreaker.should_count_as_failure config e then
        let s2 := CircuitBreaker.record_failure config now e duration s1
        if CircuitBreaker.should_open_circuit config s2 then
          (CircuitBreaker.transition_to_open now s2, .error e)
        else (s2, .error e)
      else
        (CircuitBreaker.record_success config duration s1, .error e)

/-- `CircuitBreaker::execute_half_open` from `circuitbreaker.rs`.  The model
runs calls sequentially, so the concurrency count is incremented and
decremented within the same step exactly as the source does around the
operation. -/
def CircuitBreaker.execute_half_open {Ret : Type} (name : String)
    (config : CircuitBreakerConfig) (now : Nat) (op : OpRun Ret)
    (s : InnerState) : InnerState × Except AklypseError Ret :=
  if s.half_open_concurrency_count ≥ config.half_open_max_concurrent_operations then
    (CircuitBreaker.record_rejected s,
     .error (.CircuitBreakerOpen name (some 100)))
  else
    let s0 := { s with half_open_concurrency_count :=
                  s.half_open_concurrency_count + 1 }
    let sr :=
      match config.operation_timeout with
      | some timeout =>
          CircuitBreaker.execute_with_timeout name config now op timeout s0
      | none => (s0, op.res)
    let s1 := sr.1
    let result := sr.2
    let duration := observed_duration config op.running_time
    let s2 := { s1 with half_open_concurrency_count :=
                  s1.half_open_concurrency_count - 1 }
    match result with
    | .ok v =>
        let s3 := CircuitBreaker.record_success config duration s2
        if s3.consecutive_successes ≥ config.success_threshold_to_close then
          (CircuitBreaker.transition_to_closed now s3, .ok v)
        else (s3, .ok v)
    | .error e =>
        if CircuitBreaker.should_count_as_failure config e then
          let s3 := CircuitBreaker.record_failure config now e duration s2
          (CircuitBreaker.transition_to_open now s3, .error e)
        else
          (CircuitBreaker.record_success config duration s2, .error e)

/-- `CircuitBreaker::execute` from `circuitbreaker.rs`.  In the still-open
rejection branch the source unwraps `opened_at`; the model reads it with
default 0 (the proved invariant `c2_open_markers_invariant` shows `opened_at`
is always set while the breaker is `Open`, so the default is never taken on
reachable states). -/
def CircuitBreaker.execute {Ret : Type} (name : String)
    (config : CircuitBreakerConfig) (now : Nat) (op : OpRun Ret)
    (s : InnerState) : InnerState × Except AklypseError Ret :=
  match s.state with
  | .Open =>
      let should_transition : Bool :=
        match s.opened_at with
        | some opened_at => decide (now - opened_at ≥ config.reset_timeout)
        | none => false
      if should_transition then
        CircuitBreaker.execute_half_open name config now op
          (CircuitBreaker.transition_to_half_open now s)
      else
        (CircuitBreaker.record_rejected s,
         .error (.CircuitBreakerOpen name
           (some (config.reset_timeout - (now - s.opened_at.getD 0)))))
  | .HalfOpen => CircuitBreaker.execute_half_open name config now op s
  | .Closed => CircuitBreaker.execute_closed name config now op s

/-- One call of the breaker's public mutating surface, for trace-based
reachability: an `execute` of an operation with the given behaviour, a manual
`trip`, or a manual `reset`. -/
inductive BreakerCall
  | exec (op : OpRun Unit)
  | trip
  | reset

/-- Apply one timed call to the breaker state. -/
def stepCall (name : String) (config : CircuitBreakerConfig)
    (s : InnerState) (c : BreakerCall × Nat) : InnerState :=
  match c.1 with
  | .exec op => (CircuitBreaker.execute name config c.2 op s).1
  | .trip => CircuitBreaker.trip config c.2 s
  | .reset => CircuitBreaker.reset c.2 s

/-- Run a list of timed calls from a given state. -/
def runCalls (name : String) (config : CircuitBreakerConfig)
    (calls : List (BreakerCall × Nat)) (s : InnerState) : InnerState :=
  calls.foldl (stepCall name config) s

/-- A state is reachable when some sequence of `execute`, `trip` and `reset`
calls produces it from the freshly constructed breaker. -/
def ReachableState (name : String) (config : CircuitBreakerConfig)
    (s : InnerState) : Prop :=
  ∃ calls, runCalls name config calls InnerState.default0 = s

/-- The slow-call flag recorded for an observed duration
(`duration >= threshold`, or `false` when no threshold is configured). -/
def wasSlow (config : CircuitBreakerConfig) (duration : Nat) : Bool :=
  match config.slow_call_duration_threshold with
  | some threshold => decide (duration ≥ threshold)
  | none => false

theorem windowPush_length (size : Nat) (w : List Bool) (x : Bool) :
    (windowPush size w x).length =
      (if size ≤ w.length then w.length - 1 else w.length) + 1 := by
  unfold windowPush
  split <;> simp_all [List.length_tail]

theorem windowPush_length_le (size : Nat) (w : List Bool) (x : Bool)
    (h : w.length ≤ max 1 size) : (windowPush size w x).length ≤ max 1 size := by
  rw [windowPush_length]
  rcases Nat.eq_zero_or_pos w.length with h0 | h0 <;> split <;> omega

theorem record_success_eq (config : CircuitBreakerConfig) (duration : Nat)
    (s : InnerState) : ∃ fr sr,
    CircuitBreaker.record_success config duration s =
      { s with
        consecutive_successes := s.consecutive_successes + 1,
        consecutive_failures := 0,
        results_window := windowPush config.sliding_window_size s.results_window true,
        slow_call_window := (windowPush config.sliding_window_size
          s.slow_call_window (wasSlow config duration)),
        metrics := { s.metrics with
                     total_requests := s.metrics.total_requests + 1,
                     successful_requests := s.metrics.successful_requests + 1,
                     consecutive_successes := s.consecutive_successes + 1,
                     consecutive_failures := 0,
                     failure_rate_in_window := fr,
                     slow_call_rate_in_window := sr } } := by
  unfold CircuitBreaker.record_success CircuitBreaker.update_rates wasSlow
  dsimp only
  repeat' split
  all_goals exact ⟨_, _, rfl⟩

theorem record_failure_eq (config : CircuitBreakerConfig) (now : Nat)
    (e : AklypseError) (duration : Nat) (s : InnerState) : ∃ fr sr,
    CircuitBreaker.record_failure config now e duration s =
      { s with
        consecutive_failures := s.consecutive_failures + 1,
        consecutive_successes := 0,
        results_window := windowPush config.sliding_window_size s.results_window false,
        slow_call_window := (windowPush config.sliding_window_size
          s.slow_call_window (wasSlow config duration)),
        metrics := { s.metrics with
                     total_requests := s.metrics.total_requests + 1,
                     failed_requests := s.metrics.failed_requests + 1,
                     consecutive_failures := s.consecutive_failures + 1,
                     consecutive_successes := 0,
                     last_error_timestamp := some now,
                     failure_rate_in_window := fr,
                     slow_call_rate_in_window := sr } } := by
  unfold CircuitBreaker.record_failure CircuitBreaker.update_rates wasSlow
  dsimp only
  repeat' split
  all_goals exact ⟨_, _, rfl⟩

theorem record_timeout_eq (config : CircuitBreakerConfig) (now : Nat)
    (s : InnerState) : ∃ fr sr,
    CircuitBreaker.record_timeout config now s =
      { s with
        consecutive_failures := s.consecutive_failures + 1,
        consecutive_successes := 0,
        results_window := windowPush config.sliding_window_size s.results_window false,
        metrics := { s.metrics with
                     total_requests := s.metrics.total_requests + 1,
                     timeout_requests := s.metrics.timeout_requests + 1,
                     consecutive_failures := s.consecutive_failures + 1,
                     consecutive_successes := 0,
                     last_error_timestamp := some now,
                     failure_rate_in_window := fr,
                     slow_call_rate_in_window := sr } } := by
  unfold CircuitBreaker.record_timeout CircuitBreaker.update_rates
  dsimp only
  repeat' split
  all_goals exact ⟨_, _, rfl⟩

theorem record_rejected_eq (s : InnerState) :
    CircuitBreaker.record_rejected s =
      { s with metrics := { s.metrics with
                            total_requests := s.metrics.total_requests + 1,
                            rejected_requests := s.metrics.rejected_requests + 1 } } :=
  rfl

theorem transition_to_open_eq (now : Nat) (s : InnerState) :
    CircuitBreaker.transition_to_open now s =
      { s with state := .Open, opened_at := some now,
               consecutive_successes := 0,
               metrics := { s.metrics with
                            state := .Open,
                            last_transition_timestamp := some now } } :=
  rfl

theorem transition_to_half_open_eq (now : Nat) (s : InnerState) :
    CircuitBreaker.transition_to_half_open now s =
      { s with state := .HalfOpen, half_open_entered_at := some now,
               consecutive_successes := 0, half_open_concurrency_count := 0,
               metrics := { s.metrics with
                            state := .HalfOpen,
                            last_transition_timestamp := some now } } :=
  rfl

theorem transition_to_closed_eq (now : Nat) (s : InnerState) :
    CircuitBreaker.transition_to_closed now s =
      { s with state := .Closed, opened_at := none,
               half_open_entered_at := none, consecutive_failures := 0,
               metrics := { s.metrics with
                            state := .Closed,
                            last_transition_timestamp := some now } } :=
  rfl

theorem trip_eq (config : CircuitBreakerConfig) (now : Nat) (s : InnerState) :
    CircuitBreaker.trip config now s =
      { s with state := .Open, opened_at := some now,
               consecutive_failures := config.failure_threshold,
               consecutive_successes := 0,
               metrics := { s.metrics with
                            state := .Open,
                            consecutive_failures := config.failure_threshold,
                            consecutive_successes := 0,
                            last_transition_timestamp := some now } } :=
  rfl

theorem reset_eq (now : Nat) (s : InnerState) :
    CircuitBreaker.reset now s =
      { s with state := .Closed, opened_at := none,
               half_open_entered_at := none, consecutive_failures := 0,
               consecutive_successes := 0, half_open_concurrency_count := 0,
               results_window := [], slow_call_window := [],
               metrics := { s.metrics with
                            state := .Closed,
                            consecutive_failures := 0,
                            consecutive_successes := 0,
                            last_transition_timestamp := some now } } :=
  rfl

/-- A state predicate preserved by each primitive state mutation of the
breaker under a fixed configuration (`transition_to_half_open` is handled
separately because `execute` only reaches it from an `Open` state with
`opened_at` set). -/
def PrimPreserved (config : CircuitBreakerConfig) (P : InnerState → Prop) : Prop :=
  (∀ duration s, P s → P (CircuitBreaker.record_success config duration s)) ∧
  (∀ now e duration s, P s →
    P (CircuitBreaker.record_failure config now e duration s)) ∧
  (∀ s, P s → P (CircuitBreaker.record_rejected s)) ∧
  (∀ now s, P s → P (CircuitBreaker.record_timeout config now s)) ∧
  (∀ now s, P s → P (CircuitBreaker.transition_to_open now s)) ∧
  (∀ now s, P s → P (CircuitBreaker.transition_to_closed now s)) ∧
  (∀ now s, P s → P (CircuitBreaker.trip config now s)) ∧
  (∀ now s, P s → P (CircuitBreaker.reset now s)) ∧
  (∀ s n, P s → P { s with half_open_concurrency_count := n })

theorem execute_with_timeout_fst {Ret : Type} (config : CircuitBreakerConfig)
    (P : InnerState → Prop) (h : PrimPreserved config P) (name : String)
    (now : Nat) (op : OpRun Ret) (timeout : Nat) (s : InnerState) (hs : P s) :
    P (CircuitBreaker.execute_with_timeout name config now op timeout s).1 := by
  unfold CircuitBreaker.execute_with_timeout
  split
  · exact h.2.2.2.1 now s hs
  · exact hs

theorem execute_closed_fst {Ret : Type} (config : CircuitBreakerConfig)
    (P : InnerState → Prop) (h : PrimPreserved config P) (name : String)
    (now : Nat) (op : OpRun Ret) (s : InnerState) (hs : P s) :
    P (CircuitBreaker.execute_closed name config now op s).1 := by
  unfold CircuitBreaker.execute_closed
  have hsr : P (match config.operation_timeout with
      | some timeout =>
          CircuitBreaker.execute_with_timeout name config now op timeout s
      | none => (s, op.res)).1 := by
    split
    · exact execute_with_timeout_fst config P h name now op _ s hs
    · exact hs
  dsimp only
  split
  · exact h.1 _ _ hsr
  · rename_i e heq
    split
    · split
      · exact h.2.2.2.2.1 now _ (h.2.1 now e _ _ hsr)
      · exact h.2.1 now e _ _ hsr
    · exact h.1 _ _ hsr

theorem execute_half_open_fst {Ret : Type} (config : CircuitBreakerConfig)
    (P : InnerState → Prop) (h : PrimPreserved config P) (name : String)
    (now : Nat) (op : OpRun Ret) (s : InnerState) (hs : P s) :
    P (CircuitBreaker.execute_half_open name config now op s).1 := by
  unfold CircuitBreaker.execute_half_open
  split
  · exact h.2.2.1 s hs
  · have hs0 : P { s with half_open_concurrency_count :=
        s.half_open_concurrency_count + 1 } :=
      h.2.2.2.2.2.2.2.2 s _ hs
    have hsr : P (match config.operation_timeout with
        | some timeout =>
            CircuitBreaker.execute_with_timeout name config now op timeout
              { s with half_open_concurrency_count :=
                  s.half_open_concurrency_count + 1 }
        | none => ({ s with half_open_concurrency_count :=
            s.half_open_concurrency_count + 1 }, op.res)).1 := by
      split
      · exact execute_with_timeout_fst config P h name now op _ _ hs0
      · exact hs0
    have hs2 : P _ := h.2.2.2.2.2.2.2.2 _
      ((match config.operation_timeout with
        | some timeout =>
            CircuitBreaker.execute_with_timeout name config now op timeout
              { s with half_open_concurrency_count :=
                  s.half_open_concurrency_count + 1 }
        | none => ({ s with half_open_concurrency_count :=
            s.half_open_concurrency_count + 1 }, op.res)).1.half_open_concurrency_count - 1)
      hsr
    dsimp only
    split
    · split
      · exact h.2.2.2.2.2.1 now _ (h.1 _ _ hs2)
      · exact h.1 _ _ hs2
    · rename_i e heq
      split
      · exact h.2.2.2.2.1 now _ (h.2.1 now e _ _ hs2)
      · exact h.1 _ _ hs2

theorem execute_fst {Ret : Type} (config : CircuitBreakerConfig)
    (P : InnerState → Prop) (h : PrimPreserved config P)
    (hhalf : ∀ now s, s.state = .Open → s.opened_at.isSome → P s →
      P (CircuitBreaker.transition_to_half_open now s))
    (name : String) (now : Nat) (op : OpRun Ret) (s : InnerState) (hs : P s) :
    P (CircuitBreaker.execute name config now op s).1 := by
  unfold CircuitBreaker.execute
  split
  · rename_i hstate
    rcases hoa : s.opened_at with _ | o
    · simp only [hoa]
      exact h.2.2.1 s hs
    · simp only [hoa]
      split
      · exact execute_half_open_fst config P h name now op _
          (hhalf now s hstate (by simp [hoa]) hs)
      · exact h.2.2.1 s hs
  · exact execute_half_open_fst config P h name now op s hs
  · exact execute_closed_fst config P h name now op s hs

theorem stepCall_preserves (config : CircuitBreakerConfig)
    (P : InnerState → Prop) (h : PrimPreserved config P)
    (hhalf : ∀ now s, s.state = .Open → s.opened_at.isSome → P s →
      P (CircuitBreaker.transition_to_half_open now s))
    (name : String) (s : InnerState) (c : BreakerCall × Nat) (hs : P s) :
    P (stepCall name config s c) := by
  unfold stepCall
  rcases c with ⟨c, now⟩
  cases c with
  | exec op => exact execute_fst config P h hhalf name now op s hs
  | trip => exact h.2.2.2.2.2.2.1 now s hs
  | reset => exact h.2.2.2.2.2.2.2.1 now s hs

theorem runCalls_preserves (config : CircuitBreakerConfig)
    (P : InnerState → Prop) (h : PrimPreserved config P)
    (hhalf : ∀ now s, s.state = .Open → s.opened_at.isSome → P s →
      P (CircuitBreaker.transition_to_half_open now s))
    (name : String) (calls : List (BreakerCall × Nat)) (s : InnerState)
    (hs : P s) : P (runCalls name config calls s) := by
  induction calls generalizing s with
  | nil => exact hs
  | cons c cs ih =>
      exact ih _ (stepCall_preserves config P h hhalf name s c hs)

theorem reachable_invariant (config : CircuitBreakerConfig)
    (P : InnerState → Prop) (h : PrimPreserved config P)
    (hhalf : ∀ now s, s.state = .Open → s.opened_at.isSome → P s →
      P (CircuitBreaker.transition_to_half_open now s))
    (hinit : P InnerState.default0) (name : String) (s : InnerState)
    (hr : ReachableState name config s) : P s := by
  obtain ⟨calls, rfl⟩ := hr
  exact runCalls_preserves config P h hhalf name calls _ hinit

/-- The metrics bookkeeping invariant: the request total equals the sum of
the four outcome counters. -/
def MetricsSumInv (s : InnerState) : Prop :=
  s.metrics.total_requests =
    s.metrics.successful_requests + s.metrics.failed_requests +
      s.metrics.rejected_requests + s.metrics.timeout_requests

theorem metricsSum_primPreserved (config : CircuitBreakerConfig) :
    PrimPreserved config MetricsSumInv := by
  refine ⟨?_, ?_, ?_, ?_, ?_, ?_, ?_, ?_, ?_⟩
  · intro duration s hs
    obtain ⟨fr, sr, heq⟩ := record_success_eq config duration s
    rw [heq]
    unfold MetricsSumInv at *
    dsimp only
    omega
  · intro now e duration s hs
    obtain ⟨fr, sr, heq⟩ := record_failure_eq config now e duration s
    rw [heq]
    unfold MetricsSumInv at *
    dsimp only
    omega
  · intro s hs
    rw [record_rejected_eq]
    unfold MetricsSumInv at *
    dsimp only
    omega
  · intro now s hs
    obtain ⟨fr, sr, heq⟩ := record_timeout_eq config now s
    rw [heq]
    unfold MetricsSumInv at *
    dsimp only
    omega
  · intro now s hs
    rw [transition_to_open_eq]
    unfold MetricsSumInv at *
    exact hs
  · intro now s hs
    rw [transition_to_closed_eq]
    unfold MetricsSumInv at *
    exact hs
  · intro now s hs
    rw [trip_eq]
    unfold MetricsSumInv at *
    exact hs
  · intro now s hs
    rw [reset_eq]
    unfold MetricsSumInv at *
    exact hs
  · intro s n hs
    unfold MetricsSumInv at *
    exact hs

/-- C6: after every sequence of recorded outcomes, `metrics.total_requests`
equals `successful_requests + failed_requests + rejected_requests +
timeout_requests`. -/
theorem c6_total_requests_sum (name : String) (config : CircuitBreakerConfig)
    (s : InnerState) (hr : ReachableState name config s) :
    s.metrics.total_requests =
      s.metrics.successful_requests + s.metrics.failed_requests +
        s.metrics.rejected_requests + s.metrics.timeout_requests :=
  reachable_invariant config MetricsSumInv (metricsSum_primPreserved config)
    (fun now s _ _ hs => by
      rw [transition_to_half_open_eq]
      unfold MetricsSumInv at *
      exact hs)
    (by unfold MetricsSumInv InnerState.default0 CircuitMetrics.default0; rfl)
    name s hr

/-- A sample trace: one successful execute, a manual trip, then an execute
that is rejected by the open breaker. -/
def c6trace : List (BreakerCall × Nat) :=
  [(.exec ⟨.ok (), 0⟩, 0), (.trip, 1), (.exec ⟨.ok (), 0⟩, 2)]

theorem c6_total_requests_sum_witness :
    ReachableState "cb" CircuitBreakerConfig.default0
      (runCalls "cb" CircuitBreakerConfig.default0 c6trace InnerState.default0) ∧
    (runCalls "cb" CircuitBreakerConfig.default0 c6trace
        InnerState.default0).metrics.total_requests =
      (runCalls "cb" CircuitBreakerConfig.default0 c6trace
          InnerState.default0).metrics.successful_requests +
        (runCalls "cb" CircuitBreakerConfig.default0 c6trace
            InnerState.default0).metrics.failed_requests +
        (runCalls "cb" CircuitBreakerConfig.default0 c6trace
            InnerState.default0).metrics.rejected_requests +
        (runCalls "cb" CircuitBreakerConfig.default0 c6trace
            InnerState.default0).metrics.timeout_requests :=
  ⟨⟨c6trace, rfl⟩,
   c6_total_requests_sum "cb" CircuitBreakerConfig.default0 _ ⟨c6trace, rfl⟩⟩

/-- Both sliding windows stay within `max 1 sliding_window_size` (the
pop-then-push idiom leaves one element behind even when the configured size
is 0). -/
def WindowBoundInv (config : CircuitBreakerConfig) (s : InnerState) : Prop :=
  s.results_window.length ≤ max 1 config.sliding_window_size ∧
  s.slow_call_window.length ≤ max 1 config.sliding_window_size

theorem windowBound_primPreserved (config : CircuitBreakerConfig) :
    PrimPreserved config (WindowBoundInv config) := by
  refine ⟨?_, ?_, ?_, ?_, ?_, ?_, ?_, ?_, ?_⟩
  · intro duration s hs
    obtain ⟨fr, sr, heq⟩ := record_success_eq config duration s
    rw [heq]
    unfold WindowBoundInv at *
    dsimp only
    exact ⟨windowPush_length_le _ _ _ hs.1, windowPush_length_le _ _ _ hs.2⟩
  · intro now e duration s hs
    obtain ⟨fr, sr, heq⟩ := record_failure_eq config now e duration s
    rw [heq]
    unfold WindowBoundInv at *
    dsimp only
    exact ⟨windowPush_length_le _ _ _ hs.1, windowPush_length_le _ _ _ hs.2⟩
  · intro s hs
    rw [record_rejected_eq]
    exact hs
  · intro now s hs
    obtain ⟨fr, sr, heq⟩ := record_timeout_eq config now s
    rw [heq]
    unfold WindowBoundInv at *
    dsimp only
    exact ⟨windowPush_length_le _ _ _ hs.1, hs.2⟩
  · intro now s hs
    rw [transition_to_open_eq]
    exact hs
  · intro now s hs
    rw [transition_to_closed_eq]
    exact hs
  · intro now s hs
    rw [trip_eq]
    exact hs
  · intro now s hs
    rw [reset_eq]
    unfold WindowBoundInv
    dsimp only
    constructor <;> simp
  · intro s n hs
    exact hs

/-- A configuration with `sliding_window_size = 0` (and no operation
timeout), under which one recorded success already gives a window longer
than the configured size. -/
def sizeZeroConfig : CircuitBreakerConfig :=
  { CircuitBreakerConfig.default0 with sliding_window_size := 0,
                                       operation_timeout := none }

/-- C7 counterexample: with `sliding_window_size = 0` a single successful
execute leaves the results window at length 1, exceeding the configured
size, so the claim as stated is false. -/
theorem c7_window_bound_counterexample :
    ¬ (∀ (name : String) (config : CircuitBreakerConfig) (s : InnerState),
        ReachableState name config s →
          s.results_window.length ≤ config.sliding_window_size ∧
          s.slow_call_window.length ≤ config.sliding_window_size) := by
  intro h
  have h2 := (h "cb" sizeZeroConfig _
    ⟨[(.exec ⟨.ok (), 0⟩, 0)], rfl⟩).1
  revert h2
  decide

/-- C7 (amended): the window lengths never exceed
`max 1 sliding_window_size`; in particular for every configuration with
`sliding_window_size ≥ 1` they never exceed the configured size. -/
theorem c7_window_bound_amended (name : String)
    (config : CircuitBreakerConfig) (s : InnerState)
    (hr : ReachableState name config s) :
    s.results_window.length ≤ max 1 config.sliding_window_size ∧
    s.slow_call_window.length ≤ max 1 config.sliding_window_size :=
  reachable_invariant config (WindowBoundInv config)
    (windowBound_primPreserved config)
    (fun now s _ _ hs => by
      rw [transition_to_half_open_eq]
      exact hs)
    (by unfold WindowBoundInv InnerState.default0; simp)
    name s hr

theorem c7_window_bound_amended_witness :
    ReachableState "cb" sizeZeroConfig
      (runCalls "cb" sizeZeroConfig [(.exec ⟨.ok (), 0⟩, 0)] InnerState.default0) ∧
    (runCalls "cb" sizeZeroConfig [(.exec ⟨.ok (), 0⟩, 0)]
        InnerState.default0).results_window.length ≤
      max 1 sizeZeroConfig.sliding_window_size ∧
    (runCalls "cb" sizeZeroConfig [(.exec ⟨.ok (), 0⟩, 0)]
        InnerState.default0).slow_call_window.length ≤
      max 1 sizeZeroConfig.sliding_window_size :=
  ⟨⟨[(.exec ⟨.ok (), 0⟩, 0)], rfl⟩,
   c7_window_bound_amended "cb" sizeZeroConfig _
     ⟨[(.exec ⟨.ok (), 0⟩, 0)], rfl⟩⟩

/-- The marker invariant that the transitions actually maintain:
`opened_at` is set exactly outside `Closed` (it survives the
`Open → HalfOpen` transition), `half_open_entered_at` is only set outside
`Closed` and is always set in `HalfOpen` (it survives the
`HalfOpen → Open` transition). -/
def OpenMarkersInv (s : InnerState) : Prop :=
  (s.opened_at.isSome ↔ s.state ≠ .Closed) ∧
  (s.half_open_entered_at.isSome → s.state ≠ .Closed) ∧
  (s.state = .HalfOpen → s.half_open_entered_at.isSome)

theorem openMarkers_primPreserved (config : CircuitBreakerConfig) :
    PrimPreserved config OpenMarkersInv := by
  refine ⟨?_, ?_, ?_, ?_, ?_, ?_, ?_, ?_, ?_⟩
  · intro duration s hs
    obtain ⟨fr, sr, heq⟩ := record_success_eq config duration s
    rw [heq]
    unfold OpenMarkersInv at *
    dsimp only
    exact hs
  · intro now e duration s hs
    obtain ⟨fr, sr, heq⟩ := record_failure_eq config now e duration s
    rw [heq]
    unfold OpenMarkersInv at *
    dsimp only
    exact hs
  · intro s hs
    rw [record_rejected_eq]
    exact hs
  · intro now s hs
    obtain ⟨fr, sr, heq⟩ := record_timeout_eq config now s
    rw [heq]
    unfold OpenMarkersInv at *
    dsimp only
    exact hs
  · intro now s hs
    rw [transition_to_open_eq]
    unfold OpenMarkersInv at *
    dsimp only
    simp
  · intro now s hs
    rw [transition_to_closed_eq]
    unfold OpenMarkersInv
    dsimp only
    simp
  · intro now s hs
    rw [trip_eq]
    unfold OpenMarkersInv at *
    dsimp only
    simp
  · intro now s hs
    rw [reset_eq]
    unfold OpenMarkersInv
    dsimp only
    simp
  · intro s n hs
    exact hs

/-- A configuration opening after a single failure, with a short reset
timeout and no operation timeout. -/
def halfOpenConfig : CircuitBreakerConfig :=
  { CircuitBreakerConfig.default0 with failure_threshold := 1,
                                       reset_timeout := 5,
                                       operation_timeout := none }

/-- A trace whose first execute fails (opening the breaker at time 0) and
whose second execute arrives after the reset timeout, moving the breaker to
`HalfOpen` without clearing `opened_at`. -/
def halfOpenTrace : List (BreakerCall × Nat) :=
  [(.exec ⟨.error (.Validation "f" "m"), 0⟩, 0), (.exec ⟨.ok (), 0⟩, 10)]

/-- C2 counterexample: after the breaker opens and the reset timeout
elapses, the next execute transitions to `HalfOpen` but
`transition_to_half_open` does not clear `opened_at`, so a reachable
`HalfOpen` state has `opened_at` set and the claimed iff fails. -/
theorem c2_open_markers_counterexample :
    ¬ (∀ (name : String) (config : CircuitBreakerConfig) (s : InnerState),
        ReachableState name config s →
          (s.opened_at.isSome ↔ s.state = .Open) ∧
          (s.half_open_entered_at.isSome ↔ s.state = .HalfOpen)) := by
  intro h
  have h2 := (h "cb" halfOpenConfig _ ⟨halfOpenTrace, rfl⟩).1
  have ho : (runCalls "cb" halfOpenConfig halfOpenTrace
      InnerState.default0).opened_at.isSome := by decide
  have hs := h2.mp ho
  revert hs
  decide

/-- C2 (amended): in every reachable state, `opened_at` is `Some` iff the
state is `Open` or `HalfOpen` (entering `HalfOpen` keeps it);
`half_open_entered_at` is `Some` whenever the state is `HalfOpen` and is
`None` whenever the state is `Closed` (in `Open` it may be either, because
re-opening from `HalfOpen` keeps it). -/
theorem c2_open_markers_invariant (name : String)
    (config : CircuitBreakerConfig) (s : InnerState)
    (hr : ReachableState name config s) :
    (s.opened_at.isSome ↔ (s.state = .Open ∨ s.state = .HalfOpen)) ∧
    (s.state = .HalfOpen → s.half_open_entered_at.isSome) ∧
    (s.state = .Closed → s.half_open_entered_at = none) := by
  have h := reachable_invariant config OpenMarkersInv
    (openMarkers_primPreserved config)
    (fun now s hst hoa hs => by
      rw [transition_to_half_open_eq]
      unfold OpenMarkersInv
      dsimp only
      simp [hoa])
    (by unfold OpenMarkersInv InnerState.default0; simp)
    name s hr
  obtain ⟨h1, h2, h3⟩ := h
  refine ⟨?_, h3, ?_⟩
  · rw [h1]
    cases s.state <;> simp
  · intro hc
    rcases hh : s.half_open_entered_at with _ | t
    · rfl
    · exact absurd hc (by simpa [hh] using h2)

theorem c2_open_markers_invariant_witness :
    ReachableState "cb" halfOpenConfig
      (runCalls "cb" halfOpenConfig halfOpenTrace InnerState.default0) ∧
    ((runCalls "cb" halfOpenConfig halfOpenTrace
        InnerState.default0).opened_at.isSome ↔
      ((runCalls "cb" halfOpenConfig halfOpenTrace
          InnerState.default0).state = .Open ∨
        (runCalls "cb" halfOpenConfig halfOpenTrace
            InnerState.default0).state = .HalfOpen)) :=
  ⟨⟨halfOpenTrace, rfl⟩,
   (c2_open_markers_invariant "cb" halfOpenConfig _ ⟨halfOpenTrace, rfl⟩).1⟩

/-- C5: an execute that arrives while the breaker is `Open` before the reset
timeout has elapsed is rejected with a `CircuitBreakerOpen` error whose
`retry_after` is the truncated difference `reset_timeout - (now - opened_at)`
(`checked_sub(..).unwrap_or_default()`, i.e. `max 0`), and the only state
change is `record_rejected`: `rejected_requests` and `total_requests` each
grow by one and nothing else changes. -/
theorem c5_open_rejection {Ret : Type} (name : String)
    (config : CircuitBreakerConfig) (now : Nat) (op : OpRun Ret)
    (s : InnerState) (o : Nat) (hst : s.state = .Open)
    (hoa : s.opened_at = some o) (hlt : now - o < config.reset_timeout) :
    CircuitBreaker.execute name config now op s =
      ({ s with metrics := { s.metrics with
           total_requests := s.metrics.total_requests + 1,
           rejected_requests := s.metrics.rejected_requests + 1 } },
       .error (.CircuitBreakerOpen name
         (some (config.reset_timeout - (now - o))))) := by
  unfold CircuitBreaker.execute
  simp only [hst, hoa]
  rw [if_neg]
  · rw [record_rejected_eq]
    simp
    exact ⟨hst, hoa⟩
  · simp only [ge_iff_le, decide_eq_true_eq]
    exact Nat.not_le.mpr hlt

theorem c5_open_rejection_witness :
    (CircuitBreaker.trip CircuitBreakerConfig.default0 0
        InnerState.default0).state = .Open ∧
    (CircuitBreaker.trip CircuitBreakerConfig.default0 0
        InnerState.default0).opened_at = some 0 ∧
    100 - 0 < CircuitBreakerConfig.default0.reset_timeout ∧
    CircuitBreaker.execute "cb" CircuitBreakerConfig.default0 100
        (⟨.ok (), 0⟩ : OpRun Unit)
        (CircuitBreaker.trip CircuitBreakerConfig.default0 0
          InnerState.default0) =
      ({ CircuitBreaker.trip CircuitBreakerConfig.default0 0
           InnerState.default0 with
         metrics := { (CircuitBreaker.trip CircuitBreakerConfig.default0 0
             InnerState.default0).metrics with
           total_requests := (CircuitBreaker.trip CircuitBreakerConfig.default0
               0 InnerState.default0).metrics.total_requests + 1,
           rejected_requests := (CircuitBreaker.trip
               CircuitBreakerConfig.default0 0
               InnerState.default0).metrics.rejected_requests + 1 } },
       .error (.CircuitBreakerOpen "cb"
         (some (CircuitBreakerConfig.default0.reset_timeout - (100 - 0))))) :=
  ⟨rfl, rfl, by decide,
   c5_open_rejection "cb" CircuitBreakerConfig.default0 100 ⟨.ok (), 0⟩
     (CircuitBreaker.trip CircuitBreakerConfig.default0 0 InnerState.default0)
     0 rfl rfl (by decide)⟩

/-- C4: when the configured error predicate rejects a failed operation's
error, `execute` records the outcome exactly as a success (the successful
counter grows, the results-window entry is `true`, `consecutive_failures`
is cleared rather than incremented) and still returns the operation's
original error unchanged.  The timeout hypothesis says the operation
completed within any configured budget, so the failure is the operation's
own. -/
theorem c4_predicate_false_recorded_as_success {Ret : Type} (name : String)
    (config : CircuitBreakerConfig) (now : Nat) (op : OpRun Ret)
    (s : InnerState) (p : AklypseError → Bool) (e : AklypseError)
    (hp : config.error_predicate = some p) (hres : op.res = .error e)
    (hpe : p e = false) (hst : s.state = .Closed)
    (htime : ∀ t, config.operation_timeout = some t → op.running_time ≤ t) :
    CircuitBreaker.execute name config now op s =
      (CircuitBreaker.record_success config
        (observed_duration config op.running_time) s, .error e) ∧
    (CircuitBreaker.execute name config now op s).1.metrics.successful_requests
        = s.metrics.successful_requests + 1 ∧
    (CircuitBreaker.execute name config now op s).1.consecutive_failures = 0 ∧
    (CircuitBreaker.execute name config now op s).1.results_window =
      windowPush config.sliding_window_size s.results_window true := by
  have hmain : CircuitBreaker.execute name config now op s =
      (CircuitBreaker.record_success config
        (observed_duration config op.running_time) s, .error e) := by
    unfold CircuitBreaker.execute CircuitBreaker.execute_closed
      CircuitBreaker.execute_with_timeout CircuitBreaker.should_count_as_failure
    simp only [hst]
    rcases hto : config.operation_timeout with _ | t
    · simp only [hres, hp, hpe]
      rfl
    · have hle : ¬ op.running_time > t := by
        exact Nat.not_lt.mpr (htime t hto)
      simp only [hres, hp, hpe, if_neg hle]
      rfl
  refine ⟨hmain, ?_, ?_, ?_⟩ <;> rw [hmain] <;>
    obtain ⟨fr, sr, heq⟩ := record_success_eq config
      (observed_duration config op.running_time) s <;>
    rw [heq]

/-- A configuration whose error predicate rejects every error (so no failure
is ever counted), with no operation timeout. -/
def predicateFalseConfig : CircuitBreakerConfig :=
  { CircuitBreakerConfig.default0 with
    error_predicate := some (fun _ => false), operation_timeout := none }

theorem c4_predicate_false_recorded_as_success_witness :
    predicateFalseConfig.error_predicate = some (fun _ => false) ∧
    (⟨.error (.Validation "f" "m"), 0⟩ : OpRun Unit).res =
      .error (.Validation "f" "m") ∧
    (fun (_ : AklypseError) => false) (.Validation "f" "m") = false ∧
    InnerState.default0.state = .Closed ∧
    (CircuitBreaker.execute "cb" predicateFalseConfig 0
        (⟨.error (.Validation "f" "m"), 0⟩ : OpRun Unit) InnerState.default0 =
      (CircuitBreaker.record_success predicateFalseConfig
        (observed_duration predicateFalseConfig 0) InnerState.default0,
       .error (.Validation "f" "m")) ∧
     (CircuitBreaker.execute "cb" predicateFalseConfig 0
        (⟨.error (.Validation "f" "m"), 0⟩ : OpRun Unit)
        InnerState.default0).1.metrics.successful_requests =
      InnerState.default0.metrics.successful_requests + 1 ∧
     (CircuitBreaker.execute "cb" predicateFalseConfig 0
        (⟨.error (.Validation "f" "m"), 0⟩ : OpRun Unit)
        InnerState.default0).1.consecutive_failures = 0 ∧
     (CircuitBreaker.execute "cb" predicateFalseConfig 0
        (⟨.error (.Validation "f" "m"), 0⟩ : OpRun Unit)
        InnerState.default0).1.results_window =
      windowPush predicateFalseConfig.sliding_window_size
        InnerState.default0.results_window true) :=
  ⟨rfl, rfl, rfl, rfl,
   c4_predicate_false_recorded_as_success "cb" predicateFalseConfig 0
     ⟨.error (.Validation "f" "m"), 0⟩ InnerState.default0 (fun _ => false)
     (.Validation "f" "m") rfl rfl rfl rfl (fun _t h => nomatch h)⟩

/-- A configuration with a 10 ms operation timeout and otherwise default
values (no error predicate, so every error counts). -/
def timeoutConfig : CircuitBreakerConfig :=
  { CircuitBreakerConfig.default0 with operation_timeout := some 10 }

/-- C1 counterexample: when the operation timeout fires, the breaker records
the outcome twice — `record_timeout` inside `execute_with_timeout`, and then
`record_failure` again when `execute_closed` sees the synthesized `Timeout`
error — so `consecutive_failures` grows by 2, not 1, and the claim as stated
fails on a concrete run. -/
theorem c1_timeout_counterexample :
    ¬ (∀ (name : String) (config : CircuitBreakerConfig) (now : Nat)
        (op : OpRun Unit) (s : InnerState) (t : Nat),
        config.operation_timeout = some t → t < op.running_time →
        s.state = .Closed →
          (CircuitBreaker.execute name config now op s).1.metrics.timeout_requests
              = s.metrics.timeout_requests + 1 ∧
          (CircuitBreaker.execute name config now op s).1.consecutive_failures
              = s.consecutive_failures + 1) := by
  intro h
  have h2 := (h "cb" timeoutConfig 0 ⟨.ok (), 20⟩ InnerState.default0 10 rfl
    (by decide) rfl).2
  revert h2
  decide

/-- Projection lemmas: the effect of each recording helper on the counters
that the timeout path touches. -/
theorem record_timeout_timeout_requests (config : CircuitBreakerConfig)
    (now : Nat) (s : InnerState) :
    (CircuitBreaker.record_timeout config now s).metrics.timeout_requests =
      s.metrics.timeout_requests + 1 := by
  obtain ⟨fr, sr, h⟩ := record_timeout_eq config now s
  rw [h]

theorem record_timeout_total_requests (config : CircuitBreakerConfig)
    (now : Nat) (s : InnerState) :
    (CircuitBreaker.record_timeout config now s).metrics.total_requests =
      s.metrics.total_requests + 1 := by
  obtain ⟨fr, sr, h⟩ := record_timeout_eq config now s
  rw [h]

theorem record_timeout_failed_requests (config : CircuitBreakerConfig)
    (now : Nat) (s : InnerState) :
    (CircuitBreaker.record_timeout config now s).metrics.failed_requests =
      s.metrics.failed_requests := by
  obtain ⟨fr, sr, h⟩ := record_timeout_eq config now s
  rw [h]

theorem record_timeout_consecutive_failures (config : CircuitBreakerConfig)
    (now : Nat) (s : InnerState) :
    (CircuitBreaker.record_timeout config now s).consecutive_failures =
      s.consecutive_failures + 1 := by
  obtain ⟨fr, sr, h⟩ := record_timeout_eq config now s
  rw [h]

theorem record_failure_timeout_requests (config : CircuitBreakerConfig)
    (now : Nat) (e : AklypseError) (duration : Nat) (s : InnerState) :
    (CircuitBreaker.record_failure config now e duration s).metrics.timeout_requests =
      s.metrics.timeout_requests := by
  obtain ⟨fr, sr, h⟩ := record_failure_eq config now e duration s
  rw [h]

theorem record_failure_total_requests (config : CircuitBreakerConfig)
    (now : Nat) (e : AklypseError) (duration : Nat) (s : InnerState) :
    (CircuitBreaker.record_failure config now e duration s).metrics.total_requests =
      s.metrics.total_requests + 1 := by
  obtain ⟨fr, sr, h⟩ := record_failure_eq config now e duration s
  rw [h]

theorem record_failure_failed_requests (config : CircuitBreakerConfig)
    (now : Nat) (e : AklypseError) (duration : Nat) (s : InnerState) :
    (CircuitBreaker.record_failure config now e duration s).metrics.failed_requests =
      s.metrics.failed_requests + 1 := by
  obtain ⟨fr, sr, h⟩ := record_failure_eq config now e duration s
  rw [h]

theorem record_failure_consecutive_failures (config : CircuitBreakerConfig)
    (now : Nat) (e : AklypseError) (duration : Nat) (s : InnerState) :
    (CircuitBreaker.record_failure config now e duration s).consecutive_failures =
      s.consecutive_failures + 1 := by
  obtain ⟨fr, sr, h⟩ := record_failure_eq config now e duration s
  rw [h]

theorem transition_to_open_metrics_counters (now : Nat) (s : InnerState) :
    (CircuitBreaker.transition_to_open now s).metrics.timeout_requests =
        s.metrics.timeout_requests ∧
    (CircuitBreaker.transition_to_open now s).metrics.total_requests =
        s.metrics.total_requests ∧
    (CircuitBreaker.transition_to_open now s).metrics.failed_requests =
        s.metrics.failed_requests ∧
    (CircuitBreaker.transition_to_open now s).consecutive_failures =
        s.consecutive_failures := by
  rw [transition_to_open_eq]
  exact ⟨rfl, rfl, rfl, rfl⟩

/-- Pushing the pair outside an `if` whose branches share their second
component. -/
theorem ite_pair {A B : Type} (c : Prop) [Decidable c] (a a' : A) (b : B) :
    (if c then (a, b) else (a', b)) = (if c then a else a', b) := by
  split <;> rfl

/-- C1 (amended): when the configured operation timeout fires on an execute
in the `Closed` state (with the default error predicate), exactly one
timeout is counted (`timeout_requests` grows by 1) and a synthesized
`Timeout` error is returned to the caller, but the outcome is recorded
twice: the timeout recording and the subsequent generic failure recording
of the synthesized error each increment `consecutive_failures`, so
`consecutive_failures` grows by 2, `total_requests` by 2 and
`failed_requests` by 1. -/
theorem c1_timeout_double_recording {Ret : Type} (name : String)
    (config : CircuitBreakerConfig) (now : Nat) (op : OpRun Ret)
    (s : InnerState) (t : Nat) (hto : config.operation_timeout = some t)
    (hgt : t < op.running_time) (hst : s.state = .Closed)
    (hpred : config.error_predicate = none) :
    (CircuitBreaker.execute name config now op s).1.metrics.timeout_requests
        = s.metrics.timeout_requests + 1 ∧
    (CircuitBreaker.execute name config now op s).1.metrics.failed_requests
        = s.metrics.failed_requests + 1 ∧
    (CircuitBreaker.execute name config now op s).1.metrics.total_requests
        = s.metrics.total_requests + 2 ∧
    (CircuitBreaker.execute name config now op s).1.consecutive_failures
        = s.consecutive_failures + 2 ∧
    (CircuitBreaker.execute name config now op s).2 =
      .error (.Timeout ("Operation in circuit breaker '" ++ name ++ "'") t) := by
  unfold CircuitBreaker.execute CircuitBreaker.execute_closed
    CircuitBreaker.execute_with_timeout CircuitBreaker.should_count_as_failure
  simp only [hst, hto, hpred, if_pos hgt, if_true]
  rw [ite_pair]
  refine ⟨?_, ?_, ?_, ?_, rfl⟩
  · rw [apply_ite (fun st : InnerState => st.metrics.timeout_requests)]
    simp [(transition_to_open_metrics_counters _ _).1,
      record_failure_timeout_requests, record_timeout_timeout_requests]
  · rw [apply_ite (fun st : InnerState => st.metrics.failed_requests)]
    simp [(transition_to_open_metrics_counters _ _).2.2.1,
      record_failure_failed_requests, record_timeout_failed_requests]
  · rw [apply_ite (fun st : InnerState => st.metrics.total_requests)]
    simp [(transition_to_open_metrics_counters _ _).2.1,
      record_failure_total_requests, record_timeout_total_requests]
  · rw [apply_ite (fun st : InnerState => st.consecutive_failures)]
    simp [(transition_to_open_metrics_counters _ _).2.2.2,
      record_failure_consecutive_failures, record_timeout_consecutive_failures]

theorem c1_timeout_double_recording_witness :
    timeoutConfig.operation_timeout = some 10 ∧ 10 < 20 ∧
    InnerState.default0.state = .Closed ∧
    timeoutConfig.error_predicate = none ∧
    ((CircuitBreaker.execute "cb" timeoutConfig 0 (⟨.ok (), 20⟩ : OpRun Unit)
        InnerState.default0).1.metrics.timeout_requests =
      InnerState.default0.metrics.timeout_requests + 1 ∧
     (CircuitBreaker.execute "cb" timeoutConfig 0 (⟨.ok (), 20⟩ : OpRun Unit)
        InnerState.default0).1.metrics.failed_requests =
      InnerState.default0.metrics.failed_requests + 1 ∧
     (CircuitBreaker.execute "cb" timeoutConfig 0 (⟨.ok (), 20⟩ : OpRun Unit)
        InnerState.default0).1.metrics.total_requests =
      InnerState.default0.metrics.total_requests + 2 ∧
     (CircuitBreaker.execute "cb" timeoutConfig 0 (⟨.ok (), 20⟩ : OpRun Unit)
        InnerState.default0).1.consecutive_failures =
      InnerState.default0.consecutive_failures + 2 ∧
     (CircuitBreaker.execute "cb" timeoutConfig 0 (⟨.ok (), 20⟩ : OpRun Unit)
        InnerState.default0).2 =
      .error (.Timeout ("Operation in circuit breaker '" ++ "cb" ++ "'") 10)) :=
  ⟨rfl, by decide, rfl, rfl,
   c1_timeout_double_recording "cb" timeoutConfig 0 ⟨.ok (), 20⟩
     InnerState.default0 10 rfl (by decide) rfl rfl⟩

/-- C3 counterexample: `record_timeout` pushes to the results window but not
to the slow-call window, so starting from equal window lengths (the fresh
breaker) a recorded timeout leaves the two windows with different
lengths. -/
theorem c3_windows_parallel_counterexample :
    ¬ (∀ (config : CircuitBreakerConfig) (now : Nat) (e : AklypseError)
        (duration : Nat) (s : InnerState),
        s.results_window.length = s.slow_call_window.length →
        ((CircuitBreaker.record_success config duration s).results_window.length
            = (CircuitBreaker.record_success config duration s).slow_call_window.length ∧
         (CircuitBreaker.record_failure config now e duration s).results_window.length
            = (CircuitBreaker.record_failure config now e duration s).slow_call_window.length ∧
         (CircuitBreaker.record_timeout config now s).results_window.length
            = (CircuitBreaker.record_timeout config now s).slow_call_window.length)) := by
  intro h
  have h2 := (h CircuitBreakerConfig.default0 0 (.Validation "f" "m") 0
    InnerState.default0 rfl).2.2
  revert h2
  decide

/-- C3 (amended): `record_success` and `record_failure` keep the two windows
at equal lengths, but `record_timeout` leaves the slow-call window untouched
while pushing `false` onto the results window, so after a recorded timeout
the windows are no longer parallel. -/
theorem c3_windows_parallel_amended (config : CircuitBreakerConfig)
    (now : Nat) (e : AklypseError) (duration : Nat) (s : InnerState)
    (h : s.results_window.length = s.slow_call_window.length) :
    (CircuitBreaker.record_success config duration s).results_window.length
        = (CircuitBreaker.record_success config duration s).slow_call_window.length ∧
    (CircuitBreaker.record_failure config now e duration s).results_window.length
        = (CircuitBreaker.record_failure config now e duration s).slow_call_window.length ∧
    (CircuitBreaker.record_timeout config now s).slow_call_window
        = s.slow_call_window ∧
    (CircuitBreaker.record_timeout config now s).results_window
        = windowPush config.sliding_window_size s.results_window false := by
  obtain ⟨fr1, sr1, h1⟩ := record_success_eq config duration s
  obtain ⟨fr2, sr2, h2⟩ := record_failure_eq config now e duration s
  obtain ⟨fr3, sr3, h3⟩ := record_timeout_eq config now s
  rw [h1, h2, h3]
  refine ⟨?_, ?_, rfl, rfl⟩ <;> dsimp only <;>
    rw [windowPush_length, windowPush_length, h]

theorem c3_windows_parallel_amended_witness :
    InnerState.default0.results_window.length =
      InnerState.default0.slow_call_window.length ∧
    ((CircuitBreaker.record_success CircuitBreakerConfig.default0 0
        InnerState.default0).results_window.length =
      (CircuitBreaker.record_success CircuitBreakerConfig.default0 0
        InnerState.default0).slow_call_window.length ∧
     (CircuitBreaker.record_failure CircuitBreakerConfig.default0 0
        (.Validation "f" "m") 0 InnerState.default0).results_window.length =
      (CircuitBreaker.record_failure CircuitBreakerConfig.default0 0
        (.Validation "f" "m") 0 InnerState.default0).slow_call_window.length ∧
     (CircuitBreaker.record_timeout CircuitBreakerConfig.default0 0
        InnerState.default0).slow_call_window =
      InnerState.default0.slow_call_window ∧
     (CircuitBreaker.record_timeout CircuitBreakerConfig.default0 0
        InnerState.default0).results_window =
      windowPush CircuitBreakerConfig.default0.sliding_window_size
        InnerState.default0.results_window false) :=
  ⟨rfl, c3_windows_parallel_amended CircuitBreakerConfig.default0 0
    (.Validation "f" "m") 0 InnerState.default0 rfl⟩

/-- C8: cloning preserves the error's category (also after a second clone)
and the whole user-visible view: every scalar field (paths, strings,
numbers, durations), the display string of each wrapped foreign error
(carried into the surrogate source), and the `Io` variant's IO error kind. -/
theorem c8_clone_preserves_category_and_fields (e : AklypseError) :
    e.clone.category = e.category ∧
    e.clone.clone.category = e.category ∧
    e.clone.view = e.view :=
  ⟨AklypseError.category_clone e,
   by rw [AklypseError.category_clone, AklypseError.category_clone],
   AklypseError.view_clone e⟩

/-- C9: when the outermost rich context carries a `DiagnosticResult` with a
non-empty `suggested_fixes` list, the engine returns the diagnostic-driven
autocorrection: fix type `TextReplacement`, description "Apply fix suggested
by diagnostic tool.", confidence 0.85, `targets_error_code` copied from the
diagnostic code, and — exactly when a primary location is present — a
`TextReplace` detail at that location whose replacement text joins the fixes
with newlines and whose span ends at `column + max 1 (length of the
replacement text without newlines)`; without a primary location the details
are `none`. -/
theorem c9_diagnostic_autocorrection (fs : PathFsModel) (ctx : ErrorContext)
    (inner : AklypseError) (diag : DiagnosticResult) (srcCtx : Option String)
    (hdiag : ctx.diagnostic_info = some diag)
    (hfix : diag.suggested_fixes ≠ []) :
    Decrust.suggest_autocorrection fs (.WithRichContext ctx inner) srcCtx =
      some { description := "Apply fix suggested by diagnostic tool.",
             fix_type := .textReplacement,
             confidence := 85/100,
             details := diag.primary_location.map (fun loc =>
               .textReplace loc.file loc.line loc.column loc.line
                 (loc.column + max 1
                   (((String.intercalate "\n" diag.suggested_fixes).toList.filter
                     (fun c => c ≠ '\n')).length))
                 diag.original_message
                 (String.intercalate "\n" diag.suggested_fixes)),
             diff_suggestion := none,
             commands_to_apply := [],
             targets_error_code := diag.diagnostic_code } := by
  unfold Decrust.suggest_autocorrection AklypseError.get_diagnostic_info
  simp only [hdiag]
  rw [if_neg (by simpa using hfix)]
  rcases hloc : diag.primary_location with _ | loc <;>
    simp [hloc, Nat.max_comm]

/-- A trivial instantiation of the path/filesystem oracle. -/
def trivialFs : PathFsModel :=
  { parent := fun _ => none, extensionIsNone := fun _ => true,
    pathExists := fun _ => false, isDir := fun _ => false }

/-- A sample diagnostic result with one suggested fix and a primary
location. -/
def sampleDiag : DiagnosticResult :=
  { primary_location := some ⟨"src/main.rs", 42, 10, "main", none⟩,
    expansion_trace := [], suggested_fixes := ["return Ok(x);"],
    original_message := some "Missing semicolon",
    diagnostic_code := some "E0277" }

/-- A rich context carrying `sampleDiag`. -/
def sampleDiagContext : ErrorContext :=
  { message := "Syntax error", source_location := none,
    recovery_suggestion := none, metadata := [], severity := .error,
    timestamp := none, correlation_id := none, component := none,
    tags := [], diagnostic_info := some sampleDiag }

theorem c9_diagnostic_autocorrection_witness :
    sampleDiagContext.diagnostic_info = some sampleDiag ∧
    sampleDiag.suggested_fixes ≠ [] ∧
    Decrust.suggest_autocorrection trivialFs
        (.WithRichContext sampleDiagContext (.Validation "f" "m")) none =
      some { description := "Apply fix suggested by diagnostic tool.",
             fix_type := .textReplacement,
             confidence := 85/100,
             details := sampleDiag.primary_location.map (fun loc =>
               .textReplace loc.file loc.line loc.column loc.line
                 (loc.column + max 1
                   (((String.intercalate "\n" sampleDiag.suggested_fixes).toList.filter
                     (fun c => c ≠ '\n')).length))
                 sampleDiag.original_message
                 (String.intercalate "\n" sampleDiag.suggested_fixes)),
             diff_suggestion := none,
             commands_to_apply := [],
             targets_error_code := sampleDiag.diagnostic_code } :=
  ⟨rfl, by decide,
   c9_diagnostic_autocorrection trivialFs sampleDiagContext (.Validation "f" "m")
     sampleDiag none rfl (by decide)⟩

/-- C10: diagnostic lookup is not transitive through stacked contexts.  When
a diagnostic-bearing context is wrapped by a further `add_context` whose
outer context has no `diagnostic_info`, `get_diagnostic_info` returns `none`
and the engine's output (if any) comes from the category heuristics, none of
which produce the Priority-1 `TextReplacement` fix. -/
theorem c10_diagnostic_not_transitive (fs : PathFsModel)
    (ctxOut ctxIn : ErrorContext) (inner : AklypseError)
    (diag : DiagnosticResult) (srcCtx : Option String)
    (hIn : ctxIn.diagnostic_info = some diag)
    (hfix : diag.suggested_fixes ≠ [])
    (hOut : ctxOut.diagnostic_info = none) :
    ((AklypseError.WithRichContext ctxIn inner).add_context
      ctxOut).get_diagnostic_info = none ∧
    (∀ a, Decrust.suggest_autocorrection fs
        ((AklypseError.WithRichContext ctxIn inner).add_context ctxOut) srcCtx =
          some a →
      a.fix_type ≠ .textReplacement) := by
  constructor
  · simp [AklypseError.add_context, AklypseError.get_diagnostic_info, hOut]
  · intro a ha
    unfold Decrust.suggest_autocorrection AklypseError.get_diagnostic_info
      AklypseError.add_context at ha
    simp only [hOut, AklypseError.category] at ha
    rcases hc : inner.category <;> simp only [hc] at ha <;>
      first
      | (rw [← Option.some.inj ha]; simp)
      | exact Option.noConfusion ha

/-- An outer context without diagnostic info. -/
def plainContext : ErrorContext :=
  { message := "outer", source_location := none, recovery_suggestion := none,
    metadata := [], severity := .error, timestamp := none,
    correlation_id := none, component := none, tags := [],
    diagnostic_info := none }

theorem c10_diagnostic_not_transitive_witness :
    sampleDiagContext.diagnostic_info = some sampleDiag ∧
    sampleDiag.suggested_fixes ≠ [] ∧
    plainContext.diagnostic_info = none ∧
    (((AklypseError.WithRichContext sampleDiagContext
        (.Validation "f" "m")).add_context plainContext).get_diagnostic_info
        = none ∧
     (∀ a, Decrust.suggest_autocorrection trivialFs
        ((AklypseError.WithRichContext sampleDiagContext
          (.Validation "f" "m")).add_context plainContext) none = some a →
        a.fix_type ≠ .textReplacement)) :=
  ⟨rfl, by decide, rfl,
   c10_diagnostic_not_transitive trivialFs plainContext sampleDiagContext
     (.Validation "f" "m") sampleDiag none rfl (by decide) rfl⟩
